import Mathlib

/-!
Shallow embedding of the PoCX wallet native wrapper
(`src/PocxWallet.Native/src/vanitysearch_wrapper.cpp` together with its header
`src/PocxWallet.Native/include/vanitysearch_wrapper.h`).

Modelling conventions:
* The C struct `VanitySearchResult` becomes the Lean structure of the same
  name; `elapsed_seconds` (a wall-clock `double`) is elided, since no claim
  speaks about its value.
* The file-scope mutable variables `last_error` (a `char[256]` buffer) and
  `stop_requested` (a `volatile int` flipped by a concurrent
  `vanitysearch_stop`) become the `SessionState` structure.  The buffer is
  modelled as the list of characters stored before the terminating NUL.
* `vanitysearch_find` reads `stop_requested` once at the head of every loop
  iteration.  Because the flag may be set concurrently at any time, the
  embedding takes a read schedule `stopAt : Nat → Bool` giving the value the
  flag is observed to hold when the loop condition is checked with the counter
  `attempts`; `stopAt` is unconstrained, which covers every interleaving of a
  concurrent `vanitysearch_stop` with the loop (the C code resets the flag to
  0 just before the loop, so absent any concurrent stop the schedule is
  constantly `false`).
* The progress callback in the loop body is modelled by recording, in order, the
  `attempts` value of every invocation; `hasCb` says whether the caller passed
  a non-null callback.  The floating-point rate argument is elided.
* The counter `attempts` has C type `unsigned long`; it starts at 0,
  increases by 1 per iteration and never exceeds `max (maxAttempts, 999999)`,
  so it never wraps and `Nat` models it exactly.
* The C loop has no structural bound, so the embedding carries a fuel
  argument; `vanitysearch_find` passes `maxAttempts + 1000000` fuel, which is
  proved sufficient (`findLoop_ne_fuelOut`), so the `fuelOut` sentinel is
  unreachable from `vanitysearch_find`.
* Null pointers at the C boundary are modelled with `Option`: a `none`
  pattern or result pointer is a null pointer, and a `some r` result pointer
  points at a struct currently holding `r`.
-/

/-- The C struct `VanitySearchResult` from `vanitysearch_wrapper.h`:
`found` (int, 1 if found), `mnemonic` (char[256]), `address` (char[64]),
`attempts` (unsigned long).  `elapsed_seconds` is elided (wall clock). -/
structure VanitySearchResult where
  found : Nat
  mnemonic : String
  address : String
  attempts : Nat
deriving DecidableEq

/-- File-scope mutable state of `vanitysearch_wrapper.cpp`:
`static char last_error[256]` (modelled as the characters before the
terminating NUL) and `static volatile int stop_requested`. -/
structure SessionState where
  last_error : List Char
  stop_requested : Bool
deriving DecidableEq

/-- Embeds `set_error` (lines 21-24): `strncpy(last_error, msg, 255)` followed
by forcing `last_error[255] = 0` stores exactly the first `min 255 (length msg)`
characters of `msg`, i.e. `msg.take 255`. -/
def set_error (msg : List Char) (st : SessionState) : SessionState :=
  { st with last_error := msg.take 255 }

/-- Embeds `vanitysearch_init` (lines 26-31): clears the error and returns 0. -/
def vanitysearch_init (st : SessionState) : Int × SessionState :=
  (0, set_error [] st)

/-- Embeds `vanitysearch_stop` (lines 85-87): sets the cancellation flag. -/
def vanitysearch_stop (st : SessionState) : SessionState :=
  { st with stop_requested := true }

/-- Embeds `vanitysearch_cleanup` (lines 89-92): clears the cancellation flag. -/
def vanitysearch_cleanup (st : SessionState) : SessionState :=
  { st with stop_requested := false }

/-- Embeds `vanitysearch_get_error` (lines 94-96): returns the current
contents of the `last_error` buffer. -/
def vanitysearch_get_error (st : SessionState) : List Char :=
  st.last_error

/-- Outcome of the search loop of `vanitysearch_find` (lines 56-75):
either the simulated match fired (`return 0` at line 73), or the loop
condition failed (`found`/`notFound` record the final `attempts` value and
the chronological list of progress-callback invocations).  `fuelOut` is the
sentinel for fuel exhaustion, proved unreachable for the fuel
`vanitysearch_find` passes. -/
inductive FindOutcome where
  | found (attempts : Nat) (progress : List Nat)
  | notFound (stopped : Bool) (attempts : Nat) (progress : List Nat)
  | fuelOut (attempts : Nat) (progress : List Nat)
deriving DecidableEq

/-- The progress list carried by any `FindOutcome`. -/
def FindOutcome.progress : FindOutcome → List Nat
  | .found _ p => p
  | .notFound _ _ p => p
  | .fuelOut _ p => p

/-- Embeds the `while` loop of `vanitysearch_find` (lines 56-75).
The loop condition is `!stop_requested && (max_attempts == 0 || attempts <
max_attempts)`; each iteration increments `attempts`, fires the progress
callback when `attempts % 10000 == 0`, and returns a simulated match when
`attempts % 1000000 == 999999`.  `prog` accumulates callback invocations in
reverse; every exit returns them in chronological order. -/
def findLoop (maxAttempts : Nat) (stopAt : Nat → Bool) (hasCb : Bool) :
    Nat → Nat → List Nat → FindOutcome
  | 0, attempts, prog =>
    if stopAt attempts then .notFound true attempts prog.reverse
    else if maxAttempts ≠ 0 ∧ maxAttempts ≤ attempts then
      .notFound false attempts prog.reverse
    else .fuelOut attempts prog.reverse
  | fuel + 1, attempts, prog =>
    if stopAt attempts then .notFound true attempts prog.reverse
    else if maxAttempts ≠ 0 ∧ maxAttempts ≤ attempts then
      .notFound false attempts prog.reverse
    else if (attempts + 1) % 1000000 = 999999 then
      .found (attempts + 1)
        ((if hasCb && (attempts + 1) % 10000 == 0 then (attempts + 1) :: prog
          else prog).reverse)
    else
      findLoop maxAttempts stopAt hasCb fuel (attempts + 1)
        (if hasCb && (attempts + 1) % 10000 == 0 then (attempts + 1) :: prog
         else prog)

/-- The error message written by `vanitysearch_find` on a null argument. -/
def invalidParamsMsg : List Char := "Invalid parameters".toList

/-- Everything `vanitysearch_find` hands back to its caller: the returned
status code, the contents of the result struct of the caller after the call
(`none` when the result pointer was null), the chronological list of
progress-callback invocations made during the call, and the file-scope
state at return. -/
structure FindReturn where
  status : Int
  result : Option VanitySearchResult
  progress : List Nat
  finalState : SessionState
deriving DecidableEq

/-- Embeds `vanitysearch_find` (lines 33-83).
Null `pattern` or `result` (lines 40-43): set the error and return -1 before
touching the result struct.  Otherwise the result struct is zeroed (line 46)
and the loop runs; on a simulated match the fixed demo strings are copied in
and 0 is returned (lines 67-74); otherwise `found = 0`, `attempts` is
recorded and the status is -2 when the exit was due to the stop flag, 0
otherwise (lines 78-82).  The characters of the pattern are never read past the
null check — the simulated search ignores them. -/
def vanitysearch_find (st : SessionState) (pattern : Option String)
    (resultIn : Option VanitySearchResult) (maxAttempts : Nat)
    (hasCb : Bool) (stopAt : Nat → Bool) : FindReturn :=
  match pattern, resultIn with
  | none, r => ⟨-1, r, [], set_error invalidParamsMsg st⟩
  | some _, none => ⟨-1, none, [], set_error invalidParamsMsg st⟩
  | some _, some _ =>
    match findLoop maxAttempts stopAt hasCb (maxAttempts + 1000000) 0 [] with
    | .found a prog =>
        ⟨0, some ⟨1, "abandon abandon abandon...", "pocx1qexample...", a⟩,
          prog, { st with stop_requested := false }⟩
    | .notFound stopped a prog =>
        ⟨if stopped then -2 else 0, some ⟨0, "", "", a⟩, prog,
          { st with stop_requested := stopped }⟩
    | .fuelOut a prog =>
        ⟨-3, some ⟨0, "", "", a⟩, prog, st⟩

/-! ### Loop lemmas -/

/-- With no stop request and no simulated match below the ceiling, the loop
runs to the ceiling `maxAttempts` and exits not-stopped, not-found. -/
theorem findLoop_exhaust (maxAttempts : Nat) (hasCb : Bool)
    (hmax : maxAttempts ≠ 0) :
    ∀ fuel a prog, a ≤ maxAttempts → maxAttempts - a ≤ fuel →
      (∀ k, k ≤ maxAttempts → a < k → k % 1000000 ≠ 999999) →
      ∃ p, findLoop maxAttempts (fun _ => false) hasCb fuel a prog =
        .notFound false maxAttempts p := by
  intro fuel
  induction fuel with
  | zero =>
    intro a prog ha hf _
    have hax : a = maxAttempts := by omega
    subst hax
    exact ⟨prog.reverse, by simp [findLoop, hmax]⟩
  | succ f ih =>
    intro a prog ha hf hnm
    by_cases hcase : a = maxAttempts
    · subst hcase
      exact ⟨prog.reverse, by simp [findLoop, hmax]⟩
    · have halt : a < maxAttempts := lt_of_le_of_ne ha hcase
      have hm : (a + 1) % 1000000 ≠ 999999 := hnm (a + 1) (by omega) (by omega)
      obtain ⟨p, hp⟩ := ih (a + 1)
        (if hasCb && (a + 1) % 10000 == 0 then (a + 1) :: prog else prog)
        (by omega) (by omega) (fun k hk1 hk2 => hnm k hk1 (by omega))
      refine ⟨p, ?_⟩
      rw [findLoop, if_neg (by simp), if_neg (by omega), if_neg hm]
      exact hp

/-- With no stop request, no callback and ceiling 1000000, the loop reaches
the simulated match at attempt 999999 (line 67 of the source: the first
`attempts` with `attempts % 1000000 == 999999`). -/
theorem findLoop_demo_match :
    ∀ fuel a prog, a < 999999 → 999999 - a ≤ fuel →
      findLoop 1000000 (fun _ => false) false fuel a prog =
        .found 999999 prog.reverse := by
  intro fuel
  induction fuel with
  | zero => intro a prog ha hf; omega
  | succ f ih =>
    intro a prog ha hf
    by_cases hm : a + 1 = 999999
    · rw [findLoop, if_neg (by simp), if_neg (by omega),
        if_pos (by rw [hm]), hm]
      simp
    · have hne : (a + 1) % 1000000 ≠ 999999 := by
        rw [Nat.mod_eq_of_lt (by omega)]; omega
      rw [findLoop, if_neg (by simp), if_neg (by omega), if_neg hne]
      simp only [Bool.false_and, Bool.false_eq_true, if_false]
      exact ih (a + 1) prog (by omega) (by omega)

/-- When the stop flag is first observed true at counter value `t`, with `t`
below the first simulated match and not past the ceiling, the loop exits
through the stop branch with exactly `t` attempts. -/
theorem findLoop_cancelled (maxAttempts : Nat) (hasCb : Bool) (t : Nat)
    (ht : t < 999999) (hmax : maxAttempts = 0 ∨ t ≤ maxAttempts) :
    ∀ fuel a prog, a ≤ t → t - a ≤ fuel →
      ∃ p, findLoop maxAttempts (fun k => decide (t ≤ k)) hasCb fuel a prog =
        .notFound true t p := by
  intro fuel
  induction fuel with
  | zero =>
    intro a prog ha hf
    have hax : a = t := by omega
    subst hax
    exact ⟨prog.reverse, by rw [findLoop, if_pos (by simp)]⟩
  | succ f ih =>
    intro a prog ha hf
    by_cases hat : a = t
    · subst hat
      exact ⟨prog.reverse, by rw [findLoop, if_pos (by simp)]⟩
    · have halt : a < t := lt_of_le_of_ne ha hat
      have hexh : ¬(maxAttempts ≠ 0 ∧ maxAttempts ≤ a) := by
        rcases hmax with h0 | hle
        · simp [h0]
        · omega
      have hne : (a + 1) % 1000000 ≠ 999999 := by
        rw [Nat.mod_eq_of_lt (by omega)]; omega
      obtain ⟨p, hp⟩ := ih (a + 1)
        (if hasCb && (a + 1) % 10000 == 0 then (a + 1) :: prog else prog)
        (by omega) (by omega)
      refine ⟨p, ?_⟩
      rw [findLoop, if_neg (by simp; omega), if_neg hexh, if_neg hne]
      exact hp

/-- Every progress-callback invocation the loop reports happens at an
attempt count that is a multiple of 10000 (line 60 of the source). -/
theorem findLoop_progress_mult (maxAttempts : Nat) (stopAt : Nat → Bool)
    (hasCb : Bool) :
    ∀ fuel a prog, (∀ x ∈ prog, x % 10000 = 0) →
      ∀ x ∈ (findLoop maxAttempts stopAt hasCb fuel a prog).progress,
        x % 10000 = 0 := by
  intro fuel
  induction fuel with
  | zero =>
    intro a prog hprog x hx
    rw [findLoop] at hx
    split_ifs at hx <;>
      simp only [FindOutcome.progress, List.mem_reverse] at hx <;>
      exact hprog x hx
  | succ f ih =>
    intro a prog hprog x hx
    have hprog2 : ∀ y ∈ (if hasCb && (a + 1) % 10000 == 0
        then (a + 1) :: prog else prog), y % 10000 = 0 := by
      intro y hy
      by_cases hc : (hasCb && (a + 1) % 10000 == 0) = true
      · rw [if_pos hc] at hy
        rcases List.mem_cons.mp hy with rfl | hy2
        · simp only [Bool.and_eq_true, beq_iff_eq] at hc
          exact hc.2
        · exact hprog y hy2
      · rw [if_neg hc] at hy
        exact hprog y hy
    rw [findLoop] at hx
    by_cases h1 : stopAt a = true
    · rw [if_pos h1] at hx
      simp only [FindOutcome.progress, List.mem_reverse] at hx
      exact hprog x hx
    · rw [if_neg h1] at hx
      by_cases h2 : maxAttempts ≠ 0 ∧ maxAttempts ≤ a
      · rw [if_pos h2] at hx
        simp only [FindOutcome.progress, List.mem_reverse] at hx
        exact hprog x hx
      · rw [if_neg h2] at hx
        by_cases h3 : (a + 1) % 1000000 = 999999
        · rw [if_pos h3] at hx
          simp only [FindOutcome.progress, List.mem_reverse] at hx
          exact hprog2 x hx
        · rw [if_neg h3] at hx
          exact ih (a + 1) _ hprog2 x hx

/-- With a null callback the loop makes no progress-callback invocations. -/
theorem findLoop_no_cb_progress (maxAttempts : Nat) (stopAt : Nat → Bool) :
    ∀ fuel a prog,
      (findLoop maxAttempts stopAt false fuel a prog).progress =
        prog.reverse := by
  intro fuel
  induction fuel with
  | zero =>
    intro a prog
    rw [findLoop]
    split_ifs <;> rfl
  | succ f ih =>
    intro a prog
    rw [findLoop]
    by_cases h1 : stopAt a = true
    · rw [if_pos h1]; rfl
    · rw [if_neg h1]
      by_cases h2 : maxAttempts ≠ 0 ∧ maxAttempts ≤ a
      · rw [if_pos h2]; rfl
      · rw [if_neg h2]
        by_cases h3 : (a + 1) % 1000000 = 999999
        · rw [if_pos h3]; rfl
        · rw [if_neg h3]
          exact ih (a + 1) prog

/-- Fuel adequacy: with fuel at least `999999 - a` the loop never exhausts
its fuel — the simulated match at attempt 999999 bounds the run even when
`maxAttempts = 0` — so the `fuelOut` sentinel is unreachable from
`vanitysearch_find`, which starts at counter 0 with fuel
`maxAttempts + 1000000`. -/
theorem findLoop_ne_fuelOut (maxAttempts : Nat) (stopAt : Nat → Bool)
    (hasCb : Bool) :
    ∀ fuel a prog, a < 999999 → 999999 - a ≤ fuel →
      ∀ r p, findLoop maxAttempts stopAt hasCb fuel a prog ≠ .fuelOut r p := by
  intro fuel
  induction fuel with
  | zero => intro a prog ha hf; omega
  | succ f ih =>
    intro a prog ha hf r p
    rw [findLoop]
    by_cases h1 : stopAt a = true
    · rw [if_pos h1]; exact fun hc => FindOutcome.noConfusion hc
    · rw [if_neg h1]
      by_cases h2 : maxAttempts ≠ 0 ∧ maxAttempts ≤ a
      · rw [if_pos h2]; exact fun hc => FindOutcome.noConfusion hc
      · rw [if_neg h2]
        by_cases h3 : (a + 1) % 1000000 = 999999
        · rw [if_pos h3]; exact fun hc => FindOutcome.noConfusion hc
        · rw [if_neg h3]
          have ha1 : a + 1 < 999999 := by
            by_contra hcon
            have he : a + 1 = 999999 := by omega
            rw [he] at h3
            exact h3 (by norm_num)
          exact ih (a + 1) _ ha1 (by omega) r p

/-! ### Unfolding helpers for `vanitysearch_find` -/

/-- When the loop exits without a match, `vanitysearch_find` returns the
corresponding status and a zeroed result carrying the final counter. -/
theorem vanitysearch_find_notFound (st : SessionState) (p : String)
    (r : VanitySearchResult) (maxAttempts : Nat) (hasCb : Bool)
    (stopAt : Nat → Bool) (stopped : Bool) (a : Nat) (prog : List Nat)
    (h : findLoop maxAttempts stopAt hasCb (maxAttempts + 1000000) 0 [] =
      .notFound stopped a prog) :
    vanitysearch_find st (some p) (some r) maxAttempts hasCb stopAt =
      ⟨if stopped then -2 else 0, some ⟨0, "", "", a⟩, prog,
        { st with stop_requested := stopped }⟩ := by
  unfold vanitysearch_find
  rw [h]

/-- When the loop exits through the simulated match, `vanitysearch_find`
returns status 0 and the fixed demo strings. -/
theorem vanitysearch_find_found (st : SessionState) (p : String)
    (r : VanitySearchResult) (maxAttempts : Nat) (hasCb : Bool)
    (stopAt : Nat → Bool) (a : Nat) (prog : List Nat)
    (h : findLoop maxAttempts stopAt hasCb (maxAttempts + 1000000) 0 [] =
      .found a prog) :
    vanitysearch_find st (some p) (some r) maxAttempts hasCb stopAt =
      ⟨0, some ⟨1, "abandon abandon abandon...", "pocx1qexample...", a⟩,
        prog, { st with stop_requested := false }⟩ := by
  unfold vanitysearch_find
  rw [h]

/-- The progress invocations `vanitysearch_find` reports are exactly the
ones of the loop it runs. -/
theorem vanitysearch_find_progress_eq (st : SessionState) (p : String)
    (r : VanitySearchResult) (maxAttempts : Nat) (hasCb : Bool)
    (stopAt : Nat → Bool) :
    (vanitysearch_find st (some p) (some r) maxAttempts hasCb stopAt).progress =
      (findLoop maxAttempts stopAt hasCb (maxAttempts + 1000000) 0 []).progress := by
  unfold vanitysearch_find
  cases h : findLoop maxAttempts stopAt hasCb (maxAttempts + 1000000) 0 [] <;> rfl

/-! ### Claim theorems -/

/-- C1 (refuted — the code violates the claim): calling `vanitysearch_find`
with pattern "ab" and ceiling 1000000 reaches the simulated match at attempt
999999 and returns `found = 1` with the fixed placeholder address
"pocx1qexample...", whose first characters after the network prefix "pocx1q"
are not the requested pattern "ab" — the returned address does not satisfy
the pattern that was passed in. -/
theorem find_found_address_mismatch (st : SessionState)
    (r : VanitySearchResult) :
    (vanitysearch_find st (some "ab") (some r) 1000000 false
        (fun _ => false)).status = 0 ∧
    (vanitysearch_find st (some "ab") (some r) 1000000 false
        (fun _ => false)).result =
      some ⟨1, "abandon abandon abandon...", "pocx1qexample...", 999999⟩ ∧
    "pocx1qexample...".toList.take ("pocx1q" ++ "ab").length ≠
      ("pocx1q" ++ "ab").toList := by
  have hl := findLoop_demo_match (1000000 + 1000000) 0 [] (by omega) (by omega)
  have hf := vanitysearch_find_found st "ab" r 1000000 false (fun _ => false)
    999999 [] (by rw [hl]; rfl)
  refine ⟨?_, ?_, by decide⟩ <;> rw [hf]

/-- C2 (refuted — the code violates the claim): the empty pattern is not
rejected; `vanitysearch_find` runs the search loop and returns status 0 with 5
attempts, instead of a negative status with 0 attempts. -/
theorem find_accepts_empty_pattern (st : SessionState)
    (r : VanitySearchResult) :
    (vanitysearch_find st (some "") (some r) 5 false (fun _ => false)).status
      = 0 ∧
    (vanitysearch_find st (some "") (some r) 5 false (fun _ => false)).result
      = some ⟨0, "", "", 5⟩ := by
  obtain ⟨q, hq⟩ := findLoop_exhaust 5 false (by omega) (5 + 1000000) 0 []
    (by omega) (by omega) (by intro k hk1 hk2; omega)
  have hf := vanitysearch_find_notFound st "" r 5 false (fun _ => false)
    false 5 q hq
  rw [hf]
  exact ⟨rfl, rfl⟩

/-- C3: with ceiling `K > 0`, no stop request, and no simulated match at any
attempt up to `K`, `vanitysearch_find` terminates, returns status 0, and the
result has `found = 0`, `attempts = K`, and empty address and mnemonic. -/
theorem find_exhausted_spec (st : SessionState) (p : String)
    (r : VanitySearchResult) (K : Nat) (hasCb : Bool) (hK : 0 < K)
    (hnm : ∀ k, k ≤ K → k % 1000000 ≠ 999999) :
    (vanitysearch_find st (some p) (some r) K hasCb (fun _ => false)).status
      = 0 ∧
    (vanitysearch_find st (some p) (some r) K hasCb (fun _ => false)).result
      = some ⟨0, "", "", K⟩ := by
  obtain ⟨q, hq⟩ := findLoop_exhaust K hasCb (by omega) (K + 1000000) 0 []
    (by omega) (by omega) (fun k hk1 _ => hnm k hk1)
  have hf := vanitysearch_find_notFound st p r K hasCb (fun _ => false)
    false K q hq
  rw [hf]
  exact ⟨rfl, rfl⟩

/-- C4: when the stop flag is first observed at counter value `t`, before the
simulated match and not past the ceiling, `vanitysearch_find` returns the
dedicated negative status -2 — distinct from the status 0 returned on both
success and exhaustion — with `found = 0` and `attempts = t`, the count at the
instant cancellation was noticed. -/
theorem find_cancelled_spec (st : SessionState) (p : String)
    (r : VanitySearchResult) (maxAttempts : Nat) (hasCb : Bool) (t : Nat)
    (ht : t < 999999) (hmax : maxAttempts = 0 ∨ t ≤ maxAttempts) :
    (vanitysearch_find st (some p) (some r) maxAttempts hasCb
        (fun k => decide (t ≤ k))).status = -2 ∧
    (vanitysearch_find st (some p) (some r) maxAttempts hasCb
        (fun k => decide (t ≤ k))).result = some ⟨0, "", "", t⟩ ∧
    (vanitysearch_find st (some p) (some r) maxAttempts hasCb
        (fun k => decide (t ≤ k))).status < 0 := by
  obtain ⟨q, hq⟩ := findLoop_cancelled maxAttempts hasCb t ht hmax
    (maxAttempts + 1000000) 0 [] (by omega) (by omega)
  have hf := vanitysearch_find_notFound st p r maxAttempts hasCb
    (fun k => decide (t ≤ k)) true t q hq
  rw [hf]
  exact ⟨rfl, rfl, by show (-2 : Int) < 0; decide⟩

/-- C5: every progress-callback invocation `vanitysearch_find` makes happens
at an attempt count that is a multiple of 10000 (so never once per attempt),
and a null callback is never invoked.  In the embedding the `progress` field
lists exactly the invocations made during the call, so no invocation happens
after the call returns. -/
theorem find_progress_cadence (st : SessionState) (pattern : Option String)
    (resultIn : Option VanitySearchResult) (maxAttempts : Nat)
    (stopAt : Nat → Bool) :
    ((vanitysearch_find st pattern resultIn maxAttempts true
        stopAt).progress).all (fun x => x % 10000 == 0) = true ∧
    (vanitysearch_find st pattern resultIn maxAttempts false stopAt).progress
      = [] := by
  cases pattern with
  | none => exact ⟨rfl, rfl⟩
  | some p =>
    cases resultIn with
    | none => exact ⟨rfl, rfl⟩
    | some r =>
      constructor
      · rw [vanitysearch_find_progress_eq, List.all_eq_true]
        intro x hx
        have hm := findLoop_progress_mult maxAttempts stopAt true
          (maxAttempts + 1000000) 0 [] (by intro y hy; cases hy) x hx
        simp [hm]
      · rw [vanitysearch_find_progress_eq, findLoop_no_cb_progress]
        rfl

/-- C6: a null pattern or a null result pointer is rejected before any
search work: status -1 (negative), no progress-callback invocations, the
result struct untouched, and the retrievable error message set to
"Invalid parameters". -/
theorem find_rejects_invalid_params (st : SessionState)
    (pattern : Option String) (resultIn : Option VanitySearchResult)
    (maxAttempts : Nat) (hasCb : Bool) (stopAt : Nat → Bool)
    (h : pattern = none ∨ resultIn = none) :
    (vanitysearch_find st pattern resultIn maxAttempts hasCb stopAt).status
      = -1 ∧
    (vanitysearch_find st pattern resultIn maxAttempts hasCb stopAt).status
      < 0 ∧
    (vanitysearch_find st pattern resultIn maxAttempts hasCb stopAt).progress
      = [] ∧
    (vanitysearch_find st pattern resultIn maxAttempts hasCb stopAt).result
      = resultIn ∧
    vanitysearch_get_error
        (vanitysearch_find st pattern resultIn maxAttempts hasCb
          stopAt).finalState = invalidParamsMsg := by
  have hmsg : invalidParamsMsg.take 255 = invalidParamsMsg := by decide
  rcases h with h | h
  · subst h
    exact ⟨rfl, by show (-1 : Int) < 0; decide, rfl, rfl, hmsg⟩
  · subst h
    cases pattern with
    | none => exact ⟨rfl, by show (-1 : Int) < 0; decide, rfl, rfl, hmsg⟩
    | some p => exact ⟨rfl, by show (-1 : Int) < 0; decide, rfl, rfl, hmsg⟩

/-- C7: `vanitysearch_init` always returns 0, is idempotent on the session
state, and leaves no error pending: `vanitysearch_get_error` returns the
empty string right after it. -/
theorem init_returns_zero_idempotent (st : SessionState) :
    (vanitysearch_init st).1 = 0 ∧
    (vanitysearch_init (vanitysearch_init st).2).2 = (vanitysearch_init st).2 ∧
    vanitysearch_get_error (vanitysearch_init st).2 = [] :=
  ⟨rfl, rfl, rfl⟩

/-- C8: `vanitysearch_cleanup` clears the cancellation flag, from any state —
in particular right after a `vanitysearch_stop` — so a subsequent find does
not begin in a cancelled state. -/
theorem cleanup_clears_cancellation (st : SessionState) :
    (vanitysearch_cleanup st).stop_requested = false ∧
    (vanitysearch_cleanup (vanitysearch_stop st)).stop_requested = false :=
  ⟨rfl, rfl⟩

/-- C9: when `vanitysearch_find` is rejected for a null pattern, the
result struct of the caller keeps exactly its previous contents — the error path
returns before the struct is written. -/
theorem find_error_leaves_result_unchanged (st : SessionState)
    (r : VanitySearchResult) (maxAttempts : Nat) (hasCb : Bool)
    (stopAt : Nat → Bool) :
    (vanitysearch_find st none (some r) maxAttempts hasCb stopAt).result
      = some r ∧
    (vanitysearch_find st none (some r) maxAttempts hasCb stopAt).status
      = -1 :=
  ⟨rfl, rfl⟩

/-- C10: `set_error` stores at most 255 characters — exactly the first
`min 255 (length msg)` characters of the message — so
`vanitysearch_get_error` always returns a bounded, well-formed string and
never reads past the 256-byte buffer. -/
theorem set_error_truncates_bounded (st : SessionState) (msg : List Char) :
    (vanitysearch_get_error (set_error msg st)).length ≤ 255 ∧
    vanitysearch_get_error (set_error msg st) = msg.take 255 := by
  refine ⟨?_, rfl⟩
  show (msg.take 255).length ≤ 255
  rw [List.length_take]
  omega

/-! ### Witnesses -/

/-- Witness for C3 at ceiling 3: the hypotheses hold and the call returns
status 0 with a zeroed result carrying `attempts = 3`. -/
theorem find_exhausted_spec_witness :
    (0 < 3) ∧
    ((vanitysearch_find ⟨[], false⟩ (some "zz") (some ⟨0, "", "", 0⟩) 3 false
        (fun _ => false)).status = 0 ∧
     (vanitysearch_find ⟨[], false⟩ (some "zz") (some ⟨0, "", "", 0⟩) 3 false
        (fun _ => false)).result = some ⟨0, "", "", 3⟩) :=
  ⟨by decide, find_exhausted_spec ⟨[], false⟩ "zz" ⟨0, "", "", 0⟩ 3 false
    (by decide) (by intro k hk; omega)⟩

/-- Witness for C4 at stop time 5 and ceiling 10. -/
theorem find_cancelled_spec_witness :
    (5 < 999999) ∧ ((10 : Nat) = 0 ∨ 5 ≤ 10) ∧
    ((vanitysearch_find ⟨[], false⟩ (some "ab") (some ⟨0, "", "", 0⟩) 10 false
        (fun k => decide (5 ≤ k))).status = -2 ∧
     (vanitysearch_find ⟨[], false⟩ (some "ab") (some ⟨0, "", "", 0⟩) 10 false
        (fun k => decide (5 ≤ k))).result = some ⟨0, "", "", 5⟩ ∧
     (vanitysearch_find ⟨[], false⟩ (some "ab") (some ⟨0, "", "", 0⟩) 10 false
        (fun k => decide (5 ≤ k))).status < 0) :=
  ⟨by decide, by decide, find_cancelled_spec ⟨[], false⟩ "ab" ⟨0, "", "", 0⟩
    10 false 5 (by decide) (Or.inr (by decide))⟩

/-- Witness for C6 with a null pattern and ceiling 7. -/
theorem find_rejects_invalid_params_witness :
    (vanitysearch_find ⟨[], false⟩ none (some ⟨0, "", "", 0⟩) 7 false
        (fun _ => false)).status = -1 ∧
    (vanitysearch_find ⟨[], false⟩ none (some ⟨0, "", "", 0⟩) 7 false
        (fun _ => false)).status < 0 ∧
    (vanitysearch_find ⟨[], false⟩ none (some ⟨0, "", "", 0⟩) 7 false
        (fun _ => false)).progress = [] ∧
    (vanitysearch_find ⟨[], false⟩ none (some ⟨0, "", "", 0⟩) 7 false
        (fun _ => false)).result = some ⟨0, "", "", 0⟩ ∧
    vanitysearch_get_error
        (vanitysearch_find ⟨[], false⟩ none (some ⟨0, "", "", 0⟩) 7 false
          (fun _ => false)).finalState = invalidParamsMsg :=
  find_rejects_invalid_params ⟨[], false⟩ none (some ⟨0, "", "", 0⟩) 7 false
    (fun _ => false) (Or.inl rfl)

/-- The fuel sentinel status -3 is never returned: every call to
`vanitysearch_find` resolves to a real exit of the C loop. -/
theorem vanitysearch_find_ne_sentinel (st : SessionState)
    (pattern : Option String) (resultIn : Option VanitySearchResult)
    (maxAttempts : Nat) (hasCb : Bool) (stopAt : Nat → Bool) :
    (vanitysearch_find st pattern resultIn maxAttempts hasCb stopAt).status
      ≠ -3 := by
  cases pattern with
  | none => show (-1 : Int) ≠ -3; decide
  | some p =>
    cases resultIn with
    | none => show (-1 : Int) ≠ -3; decide
    | some r =>
      unfold vanitysearch_find
      cases h : findLoop maxAttempts stopAt hasCb (maxAttempts + 1000000) 0 []
        with
      | found a prog => show (0 : Int) ≠ -3; decide
      | notFound stopped a prog =>
        cases stopped
        · show (0 : Int) ≠ -3; decide
        · show (-2 : Int) ≠ -3; decide
      | fuelOut a prog =>
        exact absurd h (findLoop_ne_fuelOut maxAttempts stopAt hasCb
          (maxAttempts + 1000000) 0 [] (by omega) (by omega) a prog)
